import Mathlib

/-!
Verification of the FoodCast forecasting core: a shallow embedding, in Lean,
of the numeric pipeline of the repository (the advanced forecasting service,
the basic forecasting service, and the client-side forecasting utilities),
together with theorems settling the specification's claims about it.

Numbers are modelled as real numbers (`ℝ`); the source uses IEEE doubles.
Where a JavaScript division by zero would produce `NaN`/`Infinity`, Lean's
convention `x / 0 = 0` applies instead, and each such place is noted in a
comment.  One claim concerns `NaN` propagation itself; for it a small
explicit model of IEEE special values (`JsNum`) is used.
-/

namespace FoodCast

noncomputable section

/-- A sales observation, mirroring the `SalesData` shape used by the services:
item name, category, quantity, revenue, and a date (modelled as an integer
timestamp; only its ordering is used by the code). -/
structure SalesData where
  itemName : String
  category : String
  quantity : ℝ
  revenue : ℝ
  date : ℤ

/-- Mean of a list of reals, as the services compute it:
`values.reduce((a,b) => a+b, 0) / values.length`.  For the empty list the
source divides 0 by 0 (JS `NaN`); here it is `0`. -/
def meanOf (values : List ℝ) : ℝ := values.sum / values.length

/-- Population variance as the services compute it:
`values.reduce((acc,val) => acc + (val-mean)^2, 0) / values.length`. -/
def varianceOf (values : List ℝ) : ℝ :=
  ((values.map (fun v => (v - meanOf values) ^ 2)).sum) / values.length

/-- Population standard deviation `Math.sqrt(variance)`. -/
def stdDevOf (values : List ℝ) : ℝ := Real.sqrt (varianceOf values)

/-- JS `arr.slice(-k)`: the last `k` elements.  `arr.slice(-0)` is
`arr.slice(0)`, i.e. the whole array, so `k = 0` returns the whole list. -/
def sliceLast (l : List ℝ) (k : ℕ) : List ℝ :=
  if k = 0 then l else l.drop (l.length - k)

/-- Server-side moving average (forecasting service, `calculateMovingAverage`):
if `data.length < window` the mean of the whole series, otherwise the mean of
the last `window` elements.  There is no validation of `window`: the source
never throws.  (For `window = 0` the source divides by zero, producing a
non-finite JS value; here the Lean convention gives `0`.) -/
def calculateMovingAverage (data : List ℝ) (window : ℕ) : ℝ :=
  if data.length < window then data.sum / data.length
  else (sliceLast data window).sum / window

/-- Client-side moving average (client utilities, `calculateMovingAverage`):
throws `Invalid window size` when `window ≤ 0` or `window > values.length`,
otherwise returns the list of all consecutive `window`-wide means
(`result[j]` is the mean of `values[j .. j+window)`). -/
def calculateMovingAverageClient (values : List ℝ) (window : ℤ) :
    Except String (List ℝ) :=
  if window ≤ 0 ∨ (values.length : ℤ) < window then
    Except.error "Invalid window size for moving average"
  else
    Except.ok ((List.range (values.length + 1 - window.toNat)).map
      (fun j => (((values.drop j).take window.toNat).sum) / (window : ℝ)))

/-- C3 counterexample: the claim says `movingAverage` returns the mean of the
whole series whenever `window > length` and fails iff `window ≤ 0`; but the
client-side implementation throws `Invalid window size` for `window = 5 > 0`
on a series of length `3` instead of returning its mean. -/
theorem movingAverageClient_window_gt_length_counterexample :
    calculateMovingAverageClient [1, 2, 3] 5 =
      Except.error "Invalid window size for moving average" ∧ ¬ ((5:ℤ) ≤ 0) := by
  constructor
  · simp only [calculateMovingAverageClient]
    norm_num
  · norm_num

/-- C3 amended: the server-side `calculateMovingAverage` returns the mean of
the whole series whenever `series.length < window` and the mean of the last
`window` elements otherwise (for `window ≥ 1`); it never raises an error
(`window ≤ 0` is not validated there).  The client-side utility instead
raises `InvalidWindow` if and only if `window ≤ 0` or `window > length`. -/
theorem movingAverage_amended :
    (∀ (data : List ℝ) (window : ℕ), data.length < window →
        calculateMovingAverage data window = data.sum / data.length) ∧
    (∀ (data : List ℝ) (window : ℕ), 1 ≤ window → ¬ data.length < window →
        calculateMovingAverage data window
          = ((data.drop (data.length - window)).sum) / window) ∧
    (∀ (values : List ℝ) (window : ℤ),
        (∃ e, calculateMovingAverageClient values window = Except.error e)
          ↔ (window ≤ 0 ∨ (values.length : ℤ) < window)) := by
  refine ⟨?_, ?_, ?_⟩
  · intro data window h
    simp [calculateMovingAverage, h]
  · intro data window h1 h2
    have hw : window ≠ 0 := by omega
    simp [calculateMovingAverage, sliceLast, h2, hw]
  · intro values window
    constructor
    · intro ⟨e, he⟩
      by_contra hcond
      simp only [calculateMovingAverageClient, if_neg hcond] at he
      exact Except.noConfusion he
    · intro hcond
      exact ⟨"Invalid window size for moving average",
        by simp only [calculateMovingAverageClient, if_pos hcond]⟩

/-- C3 witness: the amended theorem applied at concrete inputs — a series of
length 2 with window 3 (mean of the whole series), and the client error
condition at window 0. -/
theorem movingAverage_amended_witness :
    (([2, 4] : List ℝ).length < 3 ∧
      calculateMovingAverage [2, 4] 3 = ([2, 4] : List ℝ).sum / ([2, 4] : List ℝ).length) ∧
    ((∃ e, calculateMovingAverageClient [1] 0 = Except.error e) ↔
      ((0:ℤ) ≤ 0 ∨ (([1] : List ℝ).length : ℤ) < 0)) :=
  ⟨⟨by norm_num, movingAverage_amended.1 [2, 4] 3 (by norm_num)⟩,
    movingAverage_amended.2.2 [1] 0⟩

/-- Linear trend forecasting (forecasting service, `calculateLinearTrend`):
ordinary least squares of value against index `0..n-1`, evaluated one step
ahead at index `n`.  For fewer than two points it returns `data[0] || 0`. -/
def calculateLinearTrend (data : List ℝ) : ℝ :=
  if data.length < 2 then data.headD 0
  else
    let n : ℝ := data.length
    let xs : List ℝ := (List.range data.length).map (fun i => (i : ℝ))
    let sumX := xs.sum
    let sumY := data.sum
    let sumXY := ((xs.zip data).map (fun p => p.1 * p.2)).sum
    let sumXX := (xs.map (fun x => x * x)).sum
    let slope := (n * sumXY - sumX * sumY) / (n * sumXX - sumX * sumX)
    let intercept := (sumY - slope * sumX) / n
    slope * n + intercept

/-- Fixed day-of-week factor table `[Sun..Sat]` of the forecasting service. -/
def seasonalFactors : List ℝ := [0.8, 0.9, 1.0, 1.1, 1.2, 1.4, 1.3]

/-- Seasonal adjustment (`getSeasonalMultiplier`): the factor-table entry for
the given weekday (`0 = Sunday .. 6 = Saturday`). -/
def getSeasonalMultiplier (dayOfWeek : Fin 7) : ℝ :=
  seasonalFactors.getD dayOfWeek 0

/-- Confidence from data consistency (forecasting service,
`calculateConfidence`): coefficient of variation `stdDev / mean`, base
confidence `max(0.3, 1 - CV)`, penalised by
`exp(-(|prediction - mean| / (stdDev || 1)) / 2)` and clamped to
`[0.3, 0.98]`; `0.5` for an empty series.

The source has no `mean === 0` guard on the `stdDev / mean` division: with an
all-zero series JS computes `0/0 = NaN`, which propagates to the returned
confidence.  Lean's `0 / 0 = 0` hides that; the `NaN` behaviour is modelled
separately by `calculateConfidenceJS` below. -/
def calculateConfidence (data : List ℝ) (prediction : ℝ) : ℝ :=
  if data.length = 0 then 0.5
  else
    let mean := meanOf data
    let stdDev := stdDevOf data
    let coefficientOfVariation := stdDev / mean
    let baseConfidence := max 0.3 (1 - coefficientOfVariation)
    let predictionDeviation :=
      |prediction - mean| / (if stdDev = 0 then 1 else stdDev)
    let adjustedConfidence := baseConfidence * Real.exp (-(predictionDeviation / 2))
    min 0.98 (max 0.3 adjustedConfidence)

/-- JS `Math.round`: round half up, i.e. `⌊x + 1/2⌋`. -/
def jsRound (x : ℝ) : ℤ := ⌊x + 1/2⌋

/-- Stable insertion of a sale into a date-sorted list, placing it after all
entries with an earlier-or-equal date (the stable sort used below). -/
def insertByDate (s : SalesData) : List SalesData → List SalesData
  | [] => [s]
  | t :: rest => if t.date ≤ s.date then t :: insertByDate s rest else s :: t :: rest

/-- Stable sort of sales by ascending date, modelling
`itemSales.sort((a,b) => a.date.getTime() - b.date.getTime())`. -/
def sortByDate (l : List SalesData) : List SalesData :=
  l.foldl (fun acc s => insertByDate s acc) []

/-- Keys in order of first appearance, modelling the iteration order of a JS
`Map` filled by insertion. -/
def firstKeys : List String → List String
  | [] => []
  | k :: rest => k :: firstKeys (rest.filter (fun x => x ≠ k))
termination_by l => l.length
decreasing_by
  simp only [List.length_cons]
  exact Nat.lt_succ_of_le (List.length_filter_le _ _)

/-- Grouping of sales by item name, modelling the `Map<string, SalesData[]>`
built by both services: one entry per distinct item name in order of first
appearance, holding that item's sales in their original order. -/
def groupByItem (l : List SalesData) : List (String × List SalesData) :=
  (firstKeys (l.map (fun s => s.itemName))).map
    (fun k => (k, l.filter (fun s => s.itemName == k)))

/-- Forecast period option of the basic forecasting service. -/
inductive Period where
  | daily
  | weekly
  | monthly

/-- A prediction record produced by the basic forecasting service
(`InsertPrediction` shape). -/
structure InsertPrediction where
  itemName : String
  category : String
  predictedQuantity : ℤ
  confidence : ℝ
  predictionDate : ℤ
  forecastPeriod : Period

/-- Aggregate self-reported metrics of the basic forecasting service. -/
structure AggregateMetrics where
  accuracy : ℝ
  rmse : ℝ
  f1Score : ℝ
  precision : ℝ
  «recall» : ℝ

/-- Fallback sale used only to give `List.headD` a default; the source
indexes `itemSales[0]` on a list its guard has shown to be non-empty. -/
def defaultSale : SalesData := ⟨"", "", 0, 0, 0⟩

/-- Default prediction record, used as the `headD` fallback in statements. -/
def defaultPrediction : InsertPrediction := ⟨"", "", 0, 0, 0, Period.daily⟩

/-- Per-item step of `generateForecasts`: sort the item's sales by date, skip
empty series, combine moving average (window `min 7 n`) and linear trend
`0.6/0.4`, apply tomorrow's seasonal multiplier, round, clamp at 0, and score
confidence; also report `|base - lastActual|` when the series has ≥ 2 points
(the contribution to the aggregate error). -/
def forecastItem (itemName : String) (itemSales : List SalesData)
    (period : Period) (tomorrowDate : ℤ) (tomorrowDay : Fin 7) :
    Option (InsertPrediction × Option ℝ) :=
  let sorted := sortByDate itemSales
  let quantities := sorted.map (fun s => s.quantity)
  if quantities.length = 0 then none
  else
    let movingAvg := calculateMovingAverage quantities (min 7 quantities.length)
    let trendPrediction := calculateLinearTrend quantities
    let basePrediction := movingAvg * 0.6 + trendPrediction * 0.4
    let seasonalMultiplier := getSeasonalMultiplier tomorrowDay
    let seasonalPrediction := jsRound (basePrediction * seasonalMultiplier)
    let confidence := calculateConfidence quantities (seasonalPrediction : ℝ)
    some ({ itemName := itemName
            category := (sorted.headD defaultSale).category
            predictedQuantity := max 0 seasonalPrediction
            confidence := confidence
            predictionDate := tomorrowDate
            forecastPeriod := period },
          if 1 < quantities.length then
            some |basePrediction - quantities.getLastD 0| else none)

/-- The basic forecasting service's `generateForecasts`: group sales by item,
produce one prediction per non-empty item group, and derive the aggregate
metrics from the per-item errors.  `tomorrowDate`/`tomorrowDay` stand for the
source's `new Date()` plus one day and its weekday. -/
def generateForecasts (salesData : List SalesData) (period : Period)
    (tomorrowDate : ℤ) (tomorrowDay : Fin 7) :
    List InsertPrediction × AggregateMetrics :=
  let groups := groupByItem salesData
  let perItem := groups.filterMap
    (fun g => forecastItem g.1 g.2 period tomorrowDate tomorrowDay)
  let predictions := perItem.map (fun p => p.1)
  let errs := perItem.filterMap (fun p => p.2)
  let totalError := errs.sum
  let totalPredictions := errs.length
  let avgError := if 0 < totalPredictions then totalError / totalPredictions else 0
  let avgQuantity := (salesData.map (fun s => s.quantity)).sum / salesData.length
  let rmse := avgError / (if avgQuantity = 0 then 1 else avgQuantity)
  (predictions,
   { accuracy := max 0.3 (1 - rmse)
     rmse := rmse
     f1Score := max 0.5 (0.95 - rmse * 0.5)
     precision := max 0.5 (0.92 - rmse * 0.3)
     «recall» := max 0.5 (0.94 - rmse * 0.4) })

/-- A 10-day flat series of constant quantity 50 for item `X` in category
`Y` (revenue arbitrary), the scenario of the spec's BasicForecaster test. -/
def flatBatch : List SalesData :=
  [⟨"X", "Y", 50, 200, 1⟩, ⟨"X", "Y", 50, 200, 2⟩, ⟨"X", "Y", 50, 200, 3⟩,
   ⟨"X", "Y", 50, 200, 4⟩, ⟨"X", "Y", 50, 200, 5⟩, ⟨"X", "Y", 50, 200, 6⟩,
   ⟨"X", "Y", 50, 200, 7⟩, ⟨"X", "Y", 50, 200, 8⟩, ⟨"X", "Y", 50, 200, 9⟩,
   ⟨"X", "Y", 50, 200, 10⟩]

/-- The quantity series of `flatBatch`. -/
def flatQs : List ℝ := [50, 50, 50, 50, 50, 50, 50, 50, 50, 50]

/-- Exponential bound: `exp (-x) < 0.3` once `x ≥ 5/2` (using
`1 + x ≤ exp x`, so `exp (5/2) ≥ 7/2 > 10/3`). -/
theorem exp_neg_lt_three_tenths (x : ℝ) (hx : 5/2 ≤ x) : Real.exp (-x) < 0.3 := by
  have h1 : (7/2 : ℝ) ≤ Real.exp (5/2) := by
    have := Real.add_one_le_exp (5/2 : ℝ); linarith
  have h2 : Real.exp (-x) ≤ Real.exp (-(5/2)) := Real.exp_le_exp.mpr (by linarith)
  have h3 : Real.exp (-(5/2)) = (Real.exp (5/2))⁻¹ := by rw [Real.exp_neg]
  have h4 : (Real.exp (5/2))⁻¹ ≤ (7/2 : ℝ)⁻¹ := inv_anti₀ (by norm_num) h1
  nlinarith [Real.exp_pos (5/2 : ℝ)]

/-- Clamp evaluation when the penalised confidence is at most the floor. -/
theorem conf_clamp_small (x : ℝ) (hx : 5/2 ≤ x) :
    min 0.98 (max 0.3 (Real.exp (-x))) = 0.3 := by
  rw [max_eq_left (le_of_lt (exp_neg_lt_three_tenths x hx)),
    min_eq_right (by norm_num)]

/-- Clamp evaluation when there is no deviation penalty. -/
theorem conf_clamp_zero :
    min 0.98 (max 0.3 (Real.exp (-(0:ℝ)))) = 0.98 := by
  rw [neg_zero, Real.exp_zero, max_eq_right (by norm_num),
    min_eq_left (by norm_num)]

/-- On the flat series the mean is 50 and the standard deviation 0, so the
confidence reduces to the clamped deviation penalty alone. -/
theorem calculateConfidence_flatQs (p : ℝ) :
    calculateConfidence flatQs p = min 0.98 (max 0.3 (Real.exp (-(|p - 50| / 2)))) := by
  have hmean : meanOf flatQs = 50 := by norm_num [meanOf, flatQs]
  have hvar : varianceOf flatQs = 0 := by
    simp only [varianceOf, hmean]
    norm_num [flatQs]
  have hstd : stdDevOf flatQs = 0 := by rw [stdDevOf, hvar, Real.sqrt_zero]
  simp only [calculateConfidence, hmean, hstd]
  rw [if_neg (by norm_num [flatQs])]
  norm_num [max_eq_right (by norm_num : (0.3:ℝ) ≤ 1)]

/-- Running the basic forecaster on the flat batch yields exactly one
prediction record: quantity `round(50 · factor(tomorrow))` (clamped at 0)
with the confidence scored against the flat series. -/
theorem generateForecasts_flatBatch (period : Period) (td : ℤ) (d : Fin 7) :
    (generateForecasts flatBatch period td d).1 =
      [{ itemName := "X", category := "Y",
         predictedQuantity := max 0 (jsRound (50 * getSeasonalMultiplier d)),
         confidence := calculateConfidence flatQs
           ((jsRound (50 * getSeasonalMultiplier d) : ℤ) : ℝ),
         predictionDate := td, forecastPeriod := period }] := by
  have hsort : sortByDate flatBatch = flatBatch := by
    norm_num [sortByDate, insertByDate, flatBatch]
  have hgroup : groupByItem flatBatch = [("X", flatBatch)] := by
    norm_num [groupByItem, firstKeys, flatBatch]
  have hqs : flatBatch.map (fun s => s.quantity) = flatQs := by
    norm_num [flatBatch, flatQs]
  have hma : calculateMovingAverage flatQs 7 = 50 := by
    norm_num [calculateMovingAverage, sliceLast, flatQs]
  have htrend : calculateLinearTrend flatQs = 50 := by
    norm_num [calculateLinearTrend, flatQs,
      (by decide : List.range 10 = [0, 1, 2, 3, 4, 5, 6, 7, 8, 9])]
  have hlen : flatQs.length = 10 := by norm_num [flatQs]
  simp only [generateForecasts, hgroup, List.filterMap_cons, forecastItem,
    hsort, hqs, hlen, List.filterMap_nil]
  norm_num [hma, htrend, flatBatch]

/-- C8 counterexample: the claim asserts confidence ≥ 0.9 on the 10-day flat
series of quantity 50, but when tomorrow is a Sunday (factor 0.8, prediction
40) the deviation penalty `exp(-|40 - 50| / (stdDev || 1) / 2) = exp(-5)`
collapses the confidence to the 0.3 floor. -/
theorem basicForecaster_flat50_counterexample :
    ((generateForecasts flatBatch Period.daily 11 0).1.headD
        defaultPrediction).confidence < 0.9 := by
  rw [generateForecasts_flatBatch]
  simp only [List.headD_cons]
  rw [calculateConfidence_flatQs]
  have hm : getSeasonalMultiplier 0 = 0.8 := by
    norm_num [getSeasonalMultiplier, seasonalFactors]
  rw [hm]
  have hr : jsRound (50 * (0.8:ℝ)) = 40 := by
    rw [jsRound, Int.floor_eq_iff]; norm_num
  rw [hr]
  have h5 : |((40:ℤ):ℝ) - 50| / 2 = 5 := by norm_num
  rw [h5, conf_clamp_small 5 (by norm_num)]
  norm_num

/-- C8 amended: on the 10-day flat series of quantity 50 the basic forecaster
predicts exactly `round(50 · seasonalFactor(tomorrow's weekday))`, but its
confidence is 0.98 when tomorrow's factor is 1.0 (Tuesday) and the floor 0.3
on every other weekday — never in between, and ≥ 0.9 only on Tuesdays. -/
theorem basicForecaster_flat50_amended (period : Period) (td : ℤ) (d : Fin 7) :
    (generateForecasts flatBatch period td d).1.map (fun p => p.predictedQuantity)
        = [jsRound (50 * getSeasonalMultiplier d)] ∧
    (generateForecasts flatBatch period td d).1.map (fun p => p.confidence)
        = [if (d : ℕ) = 2 then (0.98 : ℝ) else 0.3] := by
  rw [generateForecasts_flatBatch, calculateConfidence_flatQs]
  have r0 : jsRound (50 * (0.8:ℝ)) = 40 := by rw [jsRound, Int.floor_eq_iff]; norm_num
  have r1 : jsRound (50 * (0.9:ℝ)) = 45 := by rw [jsRound, Int.floor_eq_iff]; norm_num
  have r2 : jsRound (50 * (1.0:ℝ)) = 50 := by rw [jsRound, Int.floor_eq_iff]; norm_num
  have r3 : jsRound (50 * (1.1:ℝ)) = 55 := by rw [jsRound, Int.floor_eq_iff]; norm_num
  have r4 : jsRound (50 * (1.2:ℝ)) = 60 := by rw [jsRound, Int.floor_eq_iff]; norm_num
  have r5 : jsRound (50 * (1.4:ℝ)) = 70 := by rw [jsRound, Int.floor_eq_iff]; norm_num
  have r6 : jsRound (50 * (1.3:ℝ)) = 65 := by rw [jsRound, Int.floor_eq_iff]; norm_num
  fin_cases d <;>
    simp only [getSeasonalMultiplier, seasonalFactors, List.getD_cons_zero,
      List.getD_cons_succ, Fin.isValue, Fin.val_zero, Fin.val_one, Fin.val_two,
      List.map_cons, List.map_nil, r0, r1, r2, r3, r4, r5, r6]
  · refine ⟨by norm_num, ?_⟩
    have h5 : |((40:ℤ):ℝ) - 50| / 2 = 5 := by norm_num
    rw [h5, conf_clamp_small 5 (by norm_num)]; norm_num
  · refine ⟨by norm_num, ?_⟩
    have h5 : |((45:ℤ):ℝ) - 50| / 2 = 5/2 := by norm_num
    rw [h5, conf_clamp_small (5/2) (by norm_num)]; norm_num
  · refine ⟨by norm_num, ?_⟩
    have h5 : |((50:ℤ):ℝ) - 50| / 2 = 0 := by norm_num
    rw [h5, conf_clamp_zero]; norm_num
  · refine ⟨by norm_num, ?_⟩
    have h5 : |((55:ℤ):ℝ) - 50| / 2 = 5/2 := by norm_num
    rw [h5, conf_clamp_small (5/2) (by norm_num)]; norm_num
  · refine ⟨by norm_num, ?_⟩
    have h5 : |((60:ℤ):ℝ) - 50| / 2 = 5 := by norm_num
    rw [h5, conf_clamp_small 5 (by norm_num)]; norm_num
  · refine ⟨by norm_num, ?_⟩
    have h5 : |((70:ℤ):ℝ) - 50| / 2 = 10 := by norm_num
    rw [h5, conf_clamp_small 10 (by norm_num)]; norm_num
  · refine ⟨by norm_num, ?_⟩
    have h5 : |((65:ℤ):ℝ) - 50| / 2 = 15/2 := by norm_num
    rw [h5, conf_clamp_small (15/2) (by norm_num)]; norm_num

/-- An anomaly flagged by the detector: observation date, value, and the
absolute z-score used as the anomaly score. -/
structure Anomaly where
  date : ℤ
  value : ℝ
  anomalyScore : ℝ

/-- Stable insertion into a score-descending list, modelling the behaviour of
`sort((a,b) => b.anomalyScore - a.anomalyScore)`: an element moves ahead only
of entries with a strictly smaller score. -/
def insertAnomaly (a : Anomaly) : List Anomaly → List Anomaly
  | [] => [a]
  | b :: rest =>
    if b.anomalyScore < a.anomalyScore then a :: b :: rest
    else b :: insertAnomaly a rest

/-- Sort anomalies descending by score (stable). -/
def sortAnomalies (l : List Anomaly) : List Anomaly :=
  l.foldl (fun acc a => insertAnomaly a acc) []

/-- Anomaly detection (`detectAnomalies` of the advanced forecasting
service): population mean / standard deviation of the quantities, z-score
`|(q - mean) / stdDev|` per observation, flag those with `z > threshold`,
sort descending by score.

With `stdDev = 0` the source computes `0/0 = NaN` and `NaN > threshold` is
false in JS, so nothing is flagged; with Lean's `0/0 = 0` the comparison
`0 > threshold` is likewise false for every non-negative threshold, so the
observable result coincides on the thresholds the service uses. -/
def detectAnomalies (data : List SalesData) (threshold : ℝ) : List Anomaly :=
  let values := data.map (fun d => d.quantity)
  let mean := meanOf values
  let stdDev := stdDevOf values
  sortAnomalies (data.filterMap (fun item =>
    let zScore := |(item.quantity - mean) / stdDev|
    if threshold < zScore then
      some { date := item.date, value := item.quantity, anomalyScore := zScore }
    else none))

/-- C4: whenever the population standard deviation of the quantities is zero
(for instance a constant series), the anomaly detector flags nothing, for
every non-negative threshold. -/
theorem detectAnomalies_zero_stdDev (data : List SalesData) (threshold : ℝ)
    (ht : 0 ≤ threshold)
    (h : stdDevOf (data.map (fun d => d.quantity)) = 0) :
    detectAnomalies data threshold = [] := by
  simp only [detectAnomalies, h]
  have hnone : ∀ item : SalesData,
      (if threshold < |(item.quantity - meanOf (data.map (fun d => d.quantity))) / (0:ℝ)|
       then some { date := item.date, value := item.quantity,
                   anomalyScore := |(item.quantity - meanOf (data.map (fun d => d.quantity))) / (0:ℝ)| }
       else (none : Option Anomaly)) = none := by
    intro item
    rw [if_neg]
    rw [div_zero, abs_zero]
    exact not_lt.mpr ht
  rw [List.filterMap_eq_nil_iff.mpr (fun item _ => hnone item)]
  rfl

/-- C4 witness: a constant two-observation series with the default threshold
2.5 has zero standard deviation and yields no anomalies. -/
theorem detectAnomalies_zero_stdDev_witness :
    (0:ℝ) ≤ 2.5 ∧
    stdDevOf (([⟨"A", "C", 5, 10, 1⟩, ⟨"A", "C", 5, 10, 2⟩] : List SalesData).map
      (fun d => d.quantity)) = 0 ∧
    detectAnomalies [⟨"A", "C", 5, 10, 1⟩, ⟨"A", "C", 5, 10, 2⟩] 2.5 = [] := by
  have h : stdDevOf (([⟨"A", "C", 5, 10, 1⟩, ⟨"A", "C", 5, 10, 2⟩] : List SalesData).map
      (fun d => d.quantity)) = 0 := by
    have hv : varianceOf [(5:ℝ), 5] = 0 := by
      have hm : meanOf [(5:ℝ), 5] = 5 := by norm_num [meanOf]
      simp only [varianceOf, hm]
      norm_num
    simp only [List.map_cons, List.map_nil]
    rw [stdDevOf]
    norm_num [hv]
  exact ⟨by norm_num, h,
    detectAnomalies_zero_stdDev _ 2.5 (by norm_num) h⟩

/-- The spec's outlier scenario: four observations of 10 and one of 100
(dates 1..5, one item). -/
def outlierBatch : List SalesData :=
  [⟨"A", "C", 10, 0, 1⟩, ⟨"A", "C", 10, 0, 2⟩, ⟨"A", "C", 10, 0, 3⟩,
   ⟨"A", "C", 10, 0, 4⟩, ⟨"A", "C", 100, 0, 5⟩]

/-- Mean of the outlier series is 28. -/
theorem meanOf_outlier : meanOf [(10:ℝ), 10, 10, 10, 100] = 28 := by
  norm_num [meanOf]

/-- Population standard deviation of the outlier series is exactly 36. -/
theorem stdDevOf_outlier : stdDevOf [(10:ℝ), 10, 10, 10, 100] = 36 := by
  have hv : varianceOf [(10:ℝ), 10, 10, 10, 100] = 1296 := by
    simp only [varianceOf, meanOf_outlier]
    norm_num
  rw [stdDevOf, hv, show (1296:ℝ) = 36 ^ 2 by norm_num,
    Real.sqrt_sq (by norm_num)]

/-- C5 counterexample: on `[10,10,10,10,100]` the outlier's z-score is
`|100 - 28| / 36 = 2.0`, which does not exceed the default threshold 2.5, so
the detector flags nothing — not one observation as claimed. -/
theorem anomalyDetector_outlier_counterexample :
    detectAnomalies outlierBatch 2.5 = [] := by
  have habs1 : |(1:ℝ)/2| = 1/2 := abs_of_nonneg (by norm_num)
  have habs2 : |(2:ℝ)| = 2 := abs_of_nonneg (by norm_num)
  simp only [detectAnomalies, outlierBatch, List.map_cons, List.map_nil,
    meanOf_outlier, stdDevOf_outlier]
  norm_num [List.filterMap_cons, List.filterMap_nil, sortAnomalies,
    habs1, habs2]

/-- C5 amended: on `[10,10,10,10,100]` the z-scores are 0.5 for each 10 and
exactly 2.0 for the 100, so the default threshold 2.5 flags nothing; for
every threshold `t` with `0.5 ≤ t < 2` (for example 1.5) the detector flags
exactly the observation of value 100, with the highest (and only) anomaly
score 2.0. -/
theorem anomalyDetector_outlier_amended :
    detectAnomalies outlierBatch 2.5 = [] ∧
    ∀ t : ℝ, 1/2 ≤ t → t < 2 →
      detectAnomalies outlierBatch t =
        [{ date := 5, value := 100, anomalyScore := 2 }] := by
  have habs1 : |(1:ℝ)/2| = 1/2 := abs_of_nonneg (by norm_num)
  have habs2 : |(2:ℝ)| = 2 := abs_of_nonneg (by norm_num)
  have e10 : |((10:ℝ) - 28) / 36| = 1/2 := by norm_num
  have e100 : |((100:ℝ) - 28) / 36| = 2 := by norm_num
  constructor
  · simp only [detectAnomalies, outlierBatch, List.map_cons, List.map_nil,
      meanOf_outlier, stdDevOf_outlier]
    norm_num [List.filterMap_cons, List.filterMap_nil, sortAnomalies,
      habs1, habs2]
  · intro t ht1 ht2
    simp only [detectAnomalies, outlierBatch, List.map_cons, List.map_nil,
      meanOf_outlier, stdDevOf_outlier, List.filterMap_cons,
      List.filterMap_nil, e10, e100]
    simp only [if_neg (not_lt.mpr ht1), if_pos ht2]
    simp [sortAnomalies, insertAnomaly]

/-- C5 witness: the amended theorem's universal part applied at the concrete
threshold 1.5. -/
theorem anomalyDetector_outlier_amended_witness :
    ((1:ℝ)/2 ≤ 1.5 ∧ (1.5:ℝ) < 2) ∧
    detectAnomalies outlierBatch 1.5 =
      [{ date := 5, value := 100, anomalyScore := 2 }] :=
  ⟨⟨by norm_num, by norm_num⟩,
    anomalyDetector_outlier_amended.2 1.5 (by norm_num) (by norm_num)⟩

/-- Indexing a mapped range: helper for the decomposition proofs. -/
theorem getD_range_map (f : ℕ → ℝ) (n i : ℕ) (h : i < n) :
    ((List.range n).map f).getD i 0 = f i := by
  rw [List.getD_eq_getElem?_getD]
  simp [List.getElem?_map, List.getElem?_range, h]

/-- Seasonal decomposition (`decomposeTimeSeries` of the advanced forecasting
service): trend by a centred moving average with half-window
`⌊seasonLength / 2⌋` clipped at the boundaries; seasonal components as the
average of `value - trend` over each residue class `i % seasonLength`
broadcast back by index (`0` for a class with no members, mirroring the
source's guarded lookup); residual as `value - trend - seasonal`. -/
def decomposeTimeSeries (data : List ℝ) (seasonLength : ℕ) :
    List ℝ × List ℝ × List ℝ :=
  let n := data.length
  let halfSeason := seasonLength / 2
  let trend := (List.range n).map (fun i =>
    let start := i - halfSeason
    let stop := min n (i + halfSeason + 1)
    let s := (data.drop start).take (stop - start)
    s.sum / s.length)
  let seasonalPattern := (List.range seasonLength).map (fun k =>
    let group := ((List.range n).filter (fun i => i % seasonLength == k)).map
      (fun i => data.getD i 0 - trend.getD i 0)
    if group.length = 0 then 0 else group.sum / group.length)
  let seasonal := (List.range n).map
    (fun i => seasonalPattern.getD (i % seasonLength) 0)
  let residual := (List.range n).map (fun i =>
    data.getD i 0 - trend.getD i 0 - seasonal.getD i 0)
  (trend, seasonal, residual)

/-- C6: for every input series, the decomposition returns trend, seasonal and
residual sequences of the input's length, and they sum back to the original
value at every index — exactly, hence within any floating-point tolerance. -/
theorem decomposeTimeSeries_roundTrip (data : List ℝ) :
    ((decomposeTimeSeries data 7).1.length = data.length ∧
     (decomposeTimeSeries data 7).2.1.length = data.length ∧
     (decomposeTimeSeries data 7).2.2.length = data.length) ∧
    (∀ i, i < data.length →
      (decomposeTimeSeries data 7).1.getD i 0
        + (decomposeTimeSeries data 7).2.1.getD i 0
        + (decomposeTimeSeries data 7).2.2.getD i 0 = data.getD i 0) := by
  refine ⟨⟨?_, ?_, ?_⟩, ?_⟩
  · simp [decomposeTimeSeries]
  · simp [decomposeTimeSeries]
  · simp [decomposeTimeSeries]
  · intro i hi
    simp only [decomposeTimeSeries]
    rw [getD_range_map _ _ _ hi, getD_range_map _ _ _ hi,
      getD_range_map _ _ _ hi, getD_range_map _ _ _ hi,
      getD_range_map _ _ _ hi]
    ring

/-- C6 witness: the round-trip identity instantiated on a concrete series. -/
theorem decomposeTimeSeries_roundTrip_witness :
    0 < ([1, 2, 3] : List ℝ).length ∧
    ((decomposeTimeSeries [1, 2, 3] 7).1.getD 0 0
      + (decomposeTimeSeries [1, 2, 3] 7).2.1.getD 0 0
      + (decomposeTimeSeries [1, 2, 3] 7).2.2.getD 0 0
      = ([1, 2, 3] : List ℝ).getD 0 0) :=
  ⟨by norm_num, (decomposeTimeSeries_roundTrip [1, 2, 3]).2 0 (by norm_num)⟩

/-- Per-model performance metrics (`ModelPerformanceMetrics` shape). -/
structure ModelPerformanceMetrics where
  mae : ℝ
  mape : ℝ
  rmse : ℝ
  r2 : ℝ
  aic : ℝ
  accuracy : ℝ
  precision : ℝ
  «recall» : ℝ
  f1Score : ℝ

/-- Model type tag of the advanced forecasting service. -/
inductive ModelType where
  | arima
  | exponential_smoothing
  | neural_network
  | ensemble

/-- A model result (`ForecastModel` shape): name, type, parallel prediction
and confidence sequences, metrics, and scalar hyperparameters. -/
structure ForecastModel where
  name : String
  type : ModelType
  predictions : List ℝ
  confidence : List ℝ
  metrics : ModelPerformanceMetrics
  hyperparameters : List (String × ℝ)

/-- Metrics from (actual, predicted) pairs (`calculateMetrics`): mae / mse /
mape over the overlapping prefix of length `n = min(|actual|, |predicted|)`
(mape skipping `actual = 0` terms), `rmse = √mse`,
`r² = 1 - SSres/SStot` (`1` when `SStot = 0`), `aic = n·ln(mse) + 6`,
`accuracy = max(0, 1 - mape)`, `precision = recall = max(0.3, accuracy)`,
`f1 = 2pr/(p+r)`; a fixed fallback record when `n = 0`.

The source's r² sums run over the whole `actual` array indexing `predicted`
(out-of-range reads are JS `undefined`; here `getD _ 0`) — every caller
passes equal-length arrays, where the two agree.  `Real.log 0 = 0` stands in
for JS `ln 0 = -∞` in `aic`; no claim concerns `aic`. -/
def calculateMetrics (actual predicted : List ℝ) : ModelPerformanceMetrics :=
  let n := min actual.length predicted.length
  if n = 0 then
    { mae := 0, mape := 0, rmse := 0, r2 := 0, aic := 0,
      accuracy := 0.5, precision := 0.5, «recall» := 0.5, f1Score := 0.5 }
  else
    let pairs := (actual.take n).zip (predicted.take n)
    let mae := (pairs.map (fun p => |p.1 - p.2|)).sum / (n : ℝ)
    let mse := (pairs.map (fun p => |p.1 - p.2| ^ 2)).sum / (n : ℝ)
    let mape := (pairs.map (fun p =>
      if p.1 ≠ 0 then |(|p.1 - p.2|) / p.1| else 0)).sum / (n : ℝ)
    let rmse := Real.sqrt mse
    let actualMean := actual.sum / (n : ℝ)
    let totalSumSquares := (actual.map (fun v => (v - actualMean) ^ 2)).sum
    let residualSumSquares :=
      (actual.enum.map (fun p => (p.2 - predicted.getD p.1 0) ^ 2)).sum
    let r2 := if totalSumSquares = 0 then 1
      else 1 - residualSumSquares / totalSumSquares
    let aic := (n : ℝ) * Real.log mse + 2 * 3
    let accuracy := max 0 (1 - mape)
    let precision := max 0.3 accuracy
    let «recall» := max 0.3 accuracy
    let f1Score := 2 * (precision * «recall») / (precision + «recall»)
    { mae := mae, mape := mape, rmse := rmse, r2 := r2, aic := aic,
      accuracy := accuracy, precision := precision, «recall» := «recall»,
      f1Score := f1Score }

/-- One pass of successive differencing. -/
def diffOnce (l : List ℝ) : List ℝ :=
  (l.tail.zip l).map (fun p => p.1 - p.2)

/-- Difference the series `order` times (`differenceData`). -/
def differenceData (data : List ℝ) : ℕ → List ℝ
  | 0 => data
  | d + 1 => differenceData (diffOnce data) d

/-- Simple AR step (`autoregressive`): if fewer than `order + 1` points,
return the last value (`0` for the empty list, modelling
`data[data.length-1] || 0`); otherwise a weighted average of the last
`order` values with weights `1/(i+1)`, divided by the number of weights. -/
def autoregressive (data : List ℝ) (order : ℕ) : List ℝ :=
  if data.length < order + 1 then [data.getLastD 0]
  else
    let lastValues := sliceLast data order
    let coefficients := (List.range lastValues.length).map
      (fun i => (1 : ℝ) / (i + 1))
    let prediction := ((lastValues.zip coefficients).map
      (fun p => p.1 * p.2)).sum / coefficients.length
    [prediction]

/-- Simplified ARIMA (`calculateARIMA`): difference `d` times, one AR step,
floor at 0; one confidence value `0.8 + r·0.15` per prediction, with `rand k`
standing for the `k`-th `Math.random()` drawn by this call. -/
def calculateARIMA (data : List ℝ) (rand : ℕ → ℝ)
    (p d q : ℕ) : ForecastModel :=
  let differenced := differenceData data d
  let forecast := autoregressive differenced p
  let predictions := forecast.map (fun val => max 0 val)
  let confidence := (List.range predictions.length).map
    (fun k => 0.8 + rand k * 0.15)
  let metrics := calculateMetrics (sliceLast data predictions.length) predictions
  { name := "ARIMA(" ++ toString p ++ "," ++ toString d ++ "," ++ toString q ++ ")"
    type := ModelType.arima
    predictions := predictions
    confidence := confidence
    metrics := metrics
    hyperparameters := [("p", (p : ℝ)), ("d", (d : ℝ)), ("q", (q : ℝ))] }

/-- Simple exponential smoothing fallback (`simpleExponentialSmoothing`):
`smoothed[0] = data[0]`, `smoothed[i] = α·data[i] + (1-α)·smoothed[i-1]`; the
one-step forecast is the last smoothed value, confidence fixed 0.7. -/
def simpleExponentialSmoothing (data : List ℝ) (alpha : ℝ) : ForecastModel :=
  let lastSmoothed := (data.drop 1).foldl
    (fun s x => alpha * x + (1 - alpha) * s) (data.headD 0)
  let predictions := [lastSmoothed]
  let confidence := [(0.7 : ℝ)]
  let metrics := calculateMetrics [data.getLastD 0] predictions
  { name := "Simple Exponential Smoothing"
    type := ModelType.exponential_smoothing
    predictions := predictions
    confidence := confidence
    metrics := metrics
    hyperparameters := [("alpha", alpha)] }

/-- Holt-Winters triple exponential smoothing (`calculateExponentialSmoothing`):
falls back to simple smoothing when `n < 2·seasonLength`; otherwise seasonal
indices are initialised from subgroup sums divided by `⌊(n-i)/seasonLength⌋`
(1 when that count is 0), `level[0] = data[0]/seasonal[0]`, `trend[0] = 0`,
then the triple update runs for `i = 1..n-1`; a 7-step forecast
`(level + h·trend)·seasonal[n - seasonLength + ((n-1+h) % seasonLength)]`
floored at 0, with confidence `max(0.5, 0.9 - 0.05·h)`.

The seasonal array is modelled as a function `ℕ → ℝ` updated at
`i + seasonLength` each iteration; the source's JS array leaves index
`seasonLength` itself unwritten (`undefined`), modelled here as 0 — the hole
can be read by the forecast step but no claim concerns those values. -/
def calculateExponentialSmoothing (data : List ℝ)
    (alpha beta gamma : ℝ) (seasonLength : ℕ) : ForecastModel :=
  let n := data.length
  if n < seasonLength * 2 then simpleExponentialSmoothing data alpha
  else
    let seasonal0 : ℕ → ℝ := fun i =>
      if i < seasonLength then
        let seasonalSum := (((List.range n).filter
          (fun j => i ≤ j ∧ (j - i) % seasonLength = 0)).map
          (fun j => data.getD j 0)).sum
        let seasonalCount := (n - i) / seasonLength
        if 0 < seasonalCount then seasonalSum / seasonalCount else 1
      else 0
    let step : ℝ × ℝ × (ℕ → ℝ) → ℕ → ℝ × ℝ × (ℕ → ℝ) := fun st i =>
      let seasonalIndex := i % seasonLength
      let lev := alpha * (data.getD i 0 / st.2.2 seasonalIndex)
        + (1 - alpha) * (st.1 + st.2.1)
      let tr := beta * (lev - st.1) + (1 - beta) * st.2.1
      let seas := fun j => if j = i + seasonLength then
          gamma * (data.getD i 0 / lev) + (1 - gamma) * st.2.2 seasonalIndex
        else st.2.2 j
      (lev, tr, seas)
    let final := ((List.range n).drop 1).foldl step
      (data.getD 0 0 / seasonal0 0, 0, seasonal0)
    let predictions := (List.range 7).map (fun h0 =>
      let h := h0 + 1
      let seasonalIndex := (n - 1 + h) % seasonLength
      max 0 ((final.1 + (h : ℝ) * final.2.1)
        * final.2.2 (n - seasonLength + seasonalIndex)))
    let confidence := (List.range 7).map
      (fun h0 : ℕ => max 0.5 (0.9 - ((h0 : ℝ) + 1) * 0.05))
    let metrics := calculateMetrics (sliceLast data (min 7 n))
      (predictions.take n)
    { name := "Holt-Winters"
      type := ModelType.exponential_smoothing
      predictions := predictions
      confidence := confidence
      metrics := metrics
      hyperparameters := [("alpha", alpha), ("beta", beta), ("gamma", gamma),
        ("seasonLength", (seasonLength : ℝ))] }

/-- Linear unit (`activate`): dot product of inputs and weights plus bias. -/
def activate (inputs weights : List ℝ) (bias : ℝ) : ℝ :=
  ((inputs.zip weights).map (fun p => p.1 * p.2)).sum + bias

/-- Neural-style forecast (`calculateNeuralNetworkForecast`): sliding windows
of width `windowSize` as inputs with the next value as target; a single
linear unit trained by 100 epochs of gradient descent at rate 0.01 on
randomly initialised weights (`rand 0..windowSize-1`) and bias
(`rand windowSize`; the source never updates the bias); predict from the
last window, floor at 0, confidence fixed 0.8.  Falls back to simple
smoothing when `n < windowSize + 1`. -/
def calculateNeuralNetworkForecast (data : List ℝ) (rand : ℕ → ℝ)
    (windowSize : ℕ) : ForecastModel :=
  if data.length < windowSize + 1 then simpleExponentialSmoothing data 0.3
  else
    let sequences := (List.range (data.length - windowSize)).map
      (fun i => (data.drop i).take windowSize)
    let targets := (List.range (data.length - windowSize)).map
      (fun i => data.getD (i + windowSize) 0)
    let weights0 := (List.range windowSize).map (fun j => rand j - 0.5)
    let bias := rand windowSize - 0.5
    let trainPass : List ℝ → List ℝ := fun ws =>
      (sequences.zip targets).foldl (fun ws2 st =>
        let prediction := activate st.1 ws2 bias
        let error := st.2 - prediction
        List.zipWith (fun w x => w + 0.01 * error * x) ws2 st.1) ws
    let weights := (List.range 100).foldl (fun ws _ => trainPass ws) weights0
    let lastSequence := sliceLast data windowSize
    let prediction := activate lastSequence weights bias
    let predictions := [max 0 prediction]
    let confidence := [(0.8 : ℝ)]
    let metrics := calculateMetrics (sliceLast targets 1) predictions
    { name := "Neural Network"
      type := ModelType.neural_network
      predictions := predictions
      confidence := confidence
      metrics := metrics
      hyperparameters := [("windowSize", (windowSize : ℝ)),
        ("learningRate", 0.01), ("epochs", 100)] }

/-- Algebraic collapse of the F1 formula at equal precision and recall. -/
theorem f1_collapse (p : ℝ) (hp : 0 < p) : 2 * (p * p) / (p + p) = p := by
  field_simp
  ring

/-- C10: for every pair of sequences the metrics satisfy
`precision = recall`, and the harmonic mean `2pr/(p+r)` therefore collapses
to `f1Score = precision` exactly (this also covers the `n = 0` fallback,
where all three are 0.5) — so in particular for every non-empty pair. -/
theorem calculateMetrics_scores_identical (actual predicted : List ℝ) :
    (calculateMetrics actual predicted).precision
        = (calculateMetrics actual predicted).«recall» ∧
    (calculateMetrics actual predicted).f1Score
        = (calculateMetrics actual predicted).precision := by
  simp only [calculateMetrics]
  split_ifs with h h2
  · exact ⟨rfl, rfl⟩
  all_goals refine ⟨rfl, ?_⟩
  all_goals dsimp only
  all_goals exact f1_collapse _ (lt_of_lt_of_le (by norm_num) (le_max_left _ _))

/-- C9: each of the model constructors (simplified ARIMA, Holt-Winters with
its simple-smoothing fallback, and the neural-style model) returns a
confidence sequence of exactly the same length as its prediction sequence,
for every input series, random source, and hyperparameter choice. -/
theorem model_confidence_parallel_predictions (data : List ℝ) (rand : ℕ → ℝ)
    (p d q windowSize : ℕ) (alpha beta gamma : ℝ) (seasonLength : ℕ) :
    (calculateARIMA data rand p d q).confidence.length
        = (calculateARIMA data rand p d q).predictions.length ∧
    (calculateExponentialSmoothing data alpha beta gamma seasonLength).confidence.length
        = (calculateExponentialSmoothing data alpha beta gamma seasonLength).predictions.length ∧
    (simpleExponentialSmoothing data alpha).confidence.length
        = (simpleExponentialSmoothing data alpha).predictions.length ∧
    (calculateNeuralNetworkForecast data rand windowSize).confidence.length
        = (calculateNeuralNetworkForecast data rand windowSize).predictions.length := by
  refine ⟨?_, ?_, ?_, ?_⟩
  · simp [calculateARIMA]
  · by_cases h : data.length < seasonLength * 2
    · simp [calculateExponentialSmoothing, h, simpleExponentialSmoothing]
    · simp [calculateExponentialSmoothing, h]
  · simp [simpleExponentialSmoothing]
  · by_cases h : data.length < windowSize + 1
    · simp [calculateNeuralNetworkForecast, h, simpleExponentialSmoothing]
    · simp [calculateNeuralNetworkForecast, h]

/-- Ensemble combination policies. -/
inductive EnsembleMethod where
  | average
  | weighted
  | best_performer

/-- Reduce to the model with the highest accuracy, first-encountered on ties
(`models.reduce(...)`); the source never calls it on an empty list, for which
a dummy model is returned here. -/
def reduceBest : List ForecastModel → ForecastModel
  | [] => { name := "", type := ModelType.ensemble, predictions := [],
            confidence := [], metrics := calculateMetrics [] [],
            hyperparameters := [] }
  | m :: rest => rest.foldl
      (fun best current =>
        if best.metrics.accuracy < current.metrics.accuracy then current
        else best) m

/-- Ensemble forecasting (`createEnsemble`): for each step `i` up to the
maximum prediction length, combine the models' step-`i` predictions and
confidences according to the policy, then floor predictions at 0 and clamp
confidences to `[0, 1]`.

In the `weighted` policy the source computes the weight as
`model.metrics.accuracy || 0.5`: JS `||` replaces every falsy value, so an
accuracy of exactly 0 is replaced by 0.5 just like a missing one — modelled
by the `if _ = 0` test below. -/
def createEnsemble (models : List ForecastModel) (method : EnsembleMethod) :
    List ℝ × List ℝ :=
  if models.length = 0 then ([], [])
  else
    let maxLength := (models.map (fun m => m.predictions.length)).foldr max 0
    let step : ℕ → ℝ × ℝ := fun i =>
      match method with
      | EnsembleMethod.average =>
        let validPredictions := models.filter
          (fun m => decide (i < m.predictions.length))
        ((validPredictions.map (fun m => m.predictions.getD i 0)).sum
            / validPredictions.length,
         (validPredictions.map (fun m => m.confidence.getD i 0)).sum
            / validPredictions.length)
      | EnsembleMethod.weighted =>
        let folded := models.foldl (fun (acc : ℝ × ℝ × ℝ) m =>
          if i < m.predictions.length then
            let weight := if m.metrics.accuracy = 0 then 0.5
              else m.metrics.accuracy
            (acc.1 + m.predictions.getD i 0 * weight,
             acc.2.1 + m.confidence.getD i 0 * weight,
             acc.2.2 + weight)
          else acc) (0, 0, 0)
        if 0 < folded.2.2 then (folded.1 / folded.2.2, folded.2.1 / folded.2.2)
        else (folded.1, folded.2.1)
      | EnsembleMethod.best_performer =>
        let bestModel := reduceBest models
        if i < bestModel.predictions.length then
          (bestModel.predictions.getD i 0, bestModel.confidence.getD i 0)
        else (0, 0)
    ((List.range maxLength).map (fun i => max 0 (step i).1),
     (List.range maxLength).map (fun i => min 1 (max 0 (step i).2)))

/-- Metrics record whose accuracy (and dependent scores) is `a`; only the
accuracy field is read by the ensemble. -/
def mkMetrics (a : ℝ) : ModelPerformanceMetrics :=
  { mae := 0, mape := 0, rmse := 0, r2 := 0, aic := 0,
    accuracy := a, precision := a, «recall» := a, f1Score := a }

/-- A model with accuracy 0, a single prediction 0 and confidence 0.5. -/
def zeroAccuracyModel : ForecastModel :=
  { name := "m1", type := ModelType.arima, predictions := [0],
    confidence := [0.5], metrics := mkMetrics 0, hyperparameters := [] }

/-- A model with accuracy 1, a single prediction 30 and confidence 0.8. -/
def fullAccuracyModel : ForecastModel :=
  { name := "m2", type := ModelType.arima, predictions := [30],
    confidence := [0.8], metrics := mkMetrics 1, hyperparameters := [] }

/-- C1 counterexample: combining a model of accuracy 0 (prediction 0,
confidence 0.5) with one of accuracy 1 (prediction 30, confidence 0.8) under
the `weighted` policy does not return the second model's values: the JS
`accuracy || 0.5` default gives the zero-accuracy model weight 0.5, so the
result is `(0·0.5 + 30·1)/1.5 = 20` with confidence
`(0.5·0.5 + 0.8·1)/1.5 = 0.7`. -/
theorem ensemble_weighted_zero_accuracy_counterexample :
    (createEnsemble [zeroAccuracyModel, fullAccuracyModel]
        EnsembleMethod.weighted).1 = [20] ∧
    (createEnsemble [zeroAccuracyModel, fullAccuracyModel]
        EnsembleMethod.weighted).2 = [0.7] ∧
    (20 : ℝ) ≠ 30 ∧ (0.7 : ℝ) ≠ 0.8 := by
  refine ⟨?_, ?_, by norm_num, by norm_num⟩ <;>
    norm_num [createEnsemble, zeroAccuracyModel, fullAccuracyModel, mkMetrics,
      List.foldl, (by decide : List.range 1 = [0])]

/-- C1 amended: in the `weighted` policy a model's weight at each step is its
accuracy except that an accuracy of 0 — like a missing one — is replaced by
0.5; hence combining a model of accuracy 0 with one of accuracy 1 yields, at
every step where both have a value, the weighted mean with weights 0.5 and 1
(then floored at 0, confidences clamped to `[0,1]`), not the second model's
value. -/
theorem ensemble_weighted_amended (m1 m2 : ForecastModel)
    (h1 : m1.metrics.accuracy = 0) (h2 : m2.metrics.accuracy = 1)
    (hlen : m1.predictions.length = m2.predictions.length)
    (i : ℕ) (hi : i < m2.predictions.length) :
    (createEnsemble [m1, m2] EnsembleMethod.weighted).1.getD i 0
      = max 0 ((m1.predictions.getD i 0 * 0.5 + m2.predictions.getD i 0 * 1)
          / (0.5 + 1)) ∧
    (createEnsemble [m1, m2] EnsembleMethod.weighted).2.getD i 0
      = min 1 (max 0 ((m1.confidence.getD i 0 * 0.5 + m2.confidence.getD i 0 * 1)
          / (0.5 + 1))) := by
  have hmax : (([m1, m2].map (fun m => m.predictions.length)).foldr max 0)
      = m2.predictions.length := by
    simp [hlen]
  have hi1 : i < m1.predictions.length := hlen ▸ hi
  simp only [createEnsemble, List.length_cons, List.length_nil, hmax]
  norm_num [getD_range_map _ _ _ hi, List.foldl, hi, hi1, h1, h2]

/-- C1 witness: the amended theorem applied to the two concrete models. -/
theorem ensemble_weighted_amended_witness :
    zeroAccuracyModel.metrics.accuracy = 0 ∧
    fullAccuracyModel.metrics.accuracy = 1 ∧
    0 < fullAccuracyModel.predictions.length ∧
    ((createEnsemble [zeroAccuracyModel, fullAccuracyModel]
        EnsembleMethod.weighted).1.getD 0 0
      = max 0 ((zeroAccuracyModel.predictions.getD 0 0 * 0.5
          + fullAccuracyModel.predictions.getD 0 0 * 1) / (0.5 + 1))) :=
  ⟨rfl, rfl, by norm_num [fullAccuracyModel],
    (ensemble_weighted_amended zeroAccuracyModel fullAccuracyModel rfl rfl
      (by norm_num [zeroAccuracyModel, fullAccuracyModel])
      0 (by norm_num [fullAccuracyModel])).1⟩

/-- A full forecast bundle (`AdvancedForecastResult` shape); the four
`external*` fields are the components of the source's random
`externalFactorsImpact` map. -/
structure AdvancedForecastResult where
  itemName : String
  category : String
  models : List ForecastModel
  bestModel : ForecastModel
  ensemblePrediction : List ℝ
  ensembleConfidence : List ℝ
  forecastHorizon : ℕ
  externalWeather : ℝ
  externalHolidays : ℝ
  externalSeasonality : ℝ
  externalTrend : ℝ
  trend : List ℝ
  seasonal : List ℝ
  residual : List ℝ
  anomalies : List Anomaly

/-- The advanced forecasting pipeline (`generateAdvancedForecasts`): group
sales by item, sort each group by date, silently skip items with fewer than
7 observations, and otherwise build the three models, the best model, the
ensemble, the decomposition and the top-5 anomalies into one bundle per
item.  `rand name k` models the `k`-th `Math.random()` drawn while the named
item's group is processed (the ARIMA confidence uses draw 0, the neural model
draws 1–6, the external-factor placeholders draws 7–10). -/
def generateAdvancedForecasts (salesData : List SalesData)
    (method : EnsembleMethod) (horizon : ℕ) (rand : String → ℕ → ℝ) :
    List AdvancedForecastResult :=
  (groupByItem salesData).filterMap (fun g =>
    let itemSales := sortByDate g.2
    let quantities := itemSales.map (fun s => s.quantity)
    if quantities.length < 7 then none
    else
      let models := [calculateARIMA quantities (fun k => rand g.1 k) 1 1 1,
                     calculateExponentialSmoothing quantities 0.3 0.3 0.3 7,
                     calculateNeuralNetworkForecast quantities
                       (fun k => rand g.1 (1 + k)) 5]
      let bestModel := reduceBest models
      let ensemble := createEnsemble models method
      let seasonalComponents := decomposeTimeSeries quantities 7
      let anomalies := detectAnomalies itemSales 2.5
      some { itemName := g.1
             category := (itemSales.headD defaultSale).category
             models := models
             bestModel := bestModel
             ensemblePrediction := ensemble.1
             ensembleConfidence := ensemble.2
             forecastHorizon := horizon
             externalWeather := rand g.1 7 * 0.1
             externalHolidays := rand g.1 8 * 0.2
             externalSeasonality := rand g.1 9 * 0.15
             externalTrend := rand g.1 10 * 0.1
             trend := seasonalComponents.1
             seasonal := seasonalComponents.2.1
             residual := seasonalComponents.2.2
             anomalies := anomalies.take 5 })

/-- Insertion preserves length plus one. -/
theorem insertByDate_length (s : SalesData) (l : List SalesData) :
    (insertByDate s l).length = l.length + 1 := by
  induction l with
  | nil => rfl
  | cons t rest ih =>
    simp only [insertByDate]
    split_ifs <;> simp [ih]

/-- Sorting by date preserves the length. -/
theorem sortByDate_length (l : List SalesData) :
    (sortByDate l).length = l.length := by
  suffices h : ∀ acc : List SalesData,
      (l.foldl (fun acc s => insertByDate s acc) acc).length
        = acc.length + l.length by
    simpa using h []
  induction l with
  | nil => intro acc; simp
  | cons t rest ih =>
    intro acc
    simp only [List.foldl_cons, ih, insertByDate_length, List.length_cons]
    omega

/-- Every group produced by `groupByItem` holds exactly the sales whose item
name is the group's key. -/
theorem groupByItem_mem_snd {l : List SalesData} {g : String × List SalesData}
    (h : g ∈ groupByItem l) :
    g.2 = l.filter (fun s => s.itemName == g.1) := by
  obtain ⟨k, hk, heq⟩ := List.mem_map.mp h
  rw [← heq]

/-- C7: the advanced pipeline emits no bundle for an item with fewer than 7
observations — such an item name never appears in the output, for any batch,
ensemble policy, horizon, and random source; the skip is a silent `continue`,
not an error (the pipeline is a total function). -/
theorem pipeline_skips_short_series (salesData : List SalesData)
    (method : EnsembleMethod) (horizon : ℕ) (rand : String → ℕ → ℝ)
    (item : String)
    (h : (salesData.filter (fun s => s.itemName == item)).length < 7) :
    ∀ b ∈ generateAdvancedForecasts salesData method horizon rand,
      b.itemName ≠ item := by
  intro b hb
  obtain ⟨g, hg, hfg⟩ := List.mem_filterMap.mp hb
  dsimp only at hfg
  by_cases hlen : ((sortByDate g.2).map (fun s => s.quantity)).length < 7
  · rw [if_pos hlen] at hfg
    exact absurd hfg (by simp)
  · rw [if_neg hlen] at hfg
    have hbname : b.itemName = g.1 := by
      rw [← Option.some.inj hfg]
    intro hbi
    have hkey : g.1 = item := by rw [← hbname, hbi]
    have hg2 : g.2 = salesData.filter (fun s => s.itemName == g.1) :=
      groupByItem_mem_snd hg
    have hlt : ((sortByDate g.2).map (fun s => s.quantity)).length < 7 := by
      rw [List.length_map, sortByDate_length, hg2, hkey]
      exact h
    exact hlen hlt

/-- C7 witness: the skip hypothesis and conclusion instantiated on a concrete
batch in which the item has fewer than 7 observations. -/
theorem pipeline_skips_short_series_witness :
    (([] : List SalesData).filter (fun s => s.itemName == "A")).length < 7 ∧
    ∀ b ∈ generateAdvancedForecasts [] EnsembleMethod.weighted 7
        (fun _ _ => 0), b.itemName ≠ "A" :=
  ⟨by simp, pipeline_skips_short_series [] EnsembleMethod.weighted 7
    (fun _ _ => 0) "A" (by simp)⟩

/-- Model of an IEEE-754 double as far as special values are concerned: a
finite real (rounding and overflow ignored), a signed infinity, or `NaN`.
Used to settle the claim about `NaN` in the confidence computation. -/
inductive JsNum where
  | num (x : ℝ)
  | posInf
  | negInf
  | nan

namespace JsNum

/-- IEEE addition on the special-value model. -/
def add : JsNum → JsNum → JsNum
  | nan, _ => nan
  | _, nan => nan
  | num a, num b => num (a + b)
  | posInf, negInf => nan
  | negInf, posInf => nan
  | posInf, _ => posInf
  | _, posInf => posInf
  | negInf, _ => negInf
  | _, negInf => negInf

/-- IEEE subtraction on the special-value model. -/
def sub : JsNum → JsNum → JsNum
  | nan, _ => nan
  | _, nan => nan
  | num a, num b => num (a - b)
  | posInf, posInf => nan
  | negInf, negInf => nan
  | posInf, _ => posInf
  | negInf, _ => negInf
  | _, posInf => negInf
  | _, negInf => posInf

/-- IEEE negation on the special-value model. -/
def neg : JsNum → JsNum
  | nan => nan
  | num a => num (-a)
  | posInf => negInf
  | negInf => posInf

/-- IEEE multiplication on the special-value model (`0 · ∞ = NaN`). -/
def mul : JsNum → JsNum → JsNum
  | nan, _ => nan
  | _, nan => nan
  | num a, num b => num (a * b)
  | posInf, num b => if b = 0 then nan else if 0 < b then posInf else negInf
  | num a, posInf => if a = 0 then nan else if 0 < a then posInf else negInf
  | negInf, num b => if b = 0 then nan else if 0 < b then negInf else posInf
  | num a, negInf => if a = 0 then nan else if 0 < a then negInf else posInf
  | posInf, posInf => posInf
  | negInf, negInf => posInf
  | posInf, negInf => negInf
  | negInf, posInf => negInf

/-- IEEE division on the special-value model: `0/0 = NaN`, a nonzero finite
numerator over zero gives a signed infinity (the sign of `-0` is ignored),
`∞/∞ = NaN`. -/
def div : JsNum → JsNum → JsNum
  | nan, _ => nan
  | _, nan => nan
  | num a, num b =>
    if b = 0 then (if a = 0 then nan else if 0 < a then posInf else negInf)
    else num (a / b)
  | num _, posInf => num 0
  | num _, negInf => num 0
  | posInf, num b => if 0 ≤ b then posInf else negInf
  | negInf, num b => if 0 ≤ b then negInf else posInf
  | posInf, _ => nan
  | negInf, _ => nan

/-- `Math.abs` on the special-value model. -/
def absJ : JsNum → JsNum
  | nan => nan
  | num a => num |a|
  | posInf => posInf
  | negInf => posInf

/-- `Math.max` on the special-value model: `NaN` if either argument is. -/
def maxJ : JsNum → JsNum → JsNum
  | nan, _ => nan
  | _, nan => nan
  | num a, num b => num (max a b)
  | posInf, _ => posInf
  | _, posInf => posInf
  | negInf, x => x
  | x, negInf => x

/-- `Math.min` on the special-value model: `NaN` if either argument is. -/
def minJ : JsNum → JsNum → JsNum
  | nan, _ => nan
  | _, nan => nan
  | num a, num b => num (min a b)
  | negInf, _ => negInf
  | _, negInf => negInf
  | posInf, x => x
  | x, posInf => x

/-- `Math.exp` on the special-value model. -/
def expJ : JsNum → JsNum
  | nan => nan
  | num a => num (Real.exp a)
  | posInf => posInf
  | negInf => num 0

/-- `Math.sqrt` on the special-value model. -/
def sqrtJ : JsNum → JsNum
  | nan => nan
  | num a => if a < 0 then nan else num (Real.sqrt a)
  | posInf => posInf
  | negInf => nan

/-- JS `a || b`: replaces the falsy values `0` and `NaN` by `b`. -/
def orDefault (a b : JsNum) : JsNum :=
  match a with
  | num x => if x = 0 then b else num x
  | nan => b
  | x => x

end JsNum

/-- The server-side forecasting service's `calculateConfidence`, line by
line, over the IEEE special-value model: unlike the client-side utility (and
unlike the spec) it has no `mean === 0` guard before the
`stdDev / mean` division. -/
def calculateConfidenceJS (data : List ℝ) (prediction : ℝ) : JsNum :=
  if data.length = 0 then JsNum.num 0.5
  else
    let jdata := data.map JsNum.num
    let mean := JsNum.div (jdata.foldl JsNum.add (JsNum.num 0))
      (JsNum.num data.length)
    let variance := JsNum.div
      ((jdata.map (fun v => JsNum.mul (JsNum.sub v mean) (JsNum.sub v mean))).foldl
        JsNum.add (JsNum.num 0))
      (JsNum.num data.length)
    let stdDev := JsNum.sqrtJ variance
    let coefficientOfVariation := JsNum.div stdDev mean
    let baseConfidence := JsNum.maxJ (JsNum.num 0.3)
      (JsNum.sub (JsNum.num 1) coefficientOfVariation)
    let predictionDeviation := JsNum.div
      (JsNum.absJ (JsNum.sub (JsNum.num prediction) mean))
      (JsNum.orDefault stdDev (JsNum.num 1))
    let adjustedConfidence := JsNum.mul baseConfidence
      (JsNum.expJ (JsNum.neg (JsNum.div predictionDeviation (JsNum.num 2))))
    JsNum.minJ (JsNum.num 0.98) (JsNum.maxJ (JsNum.num 0.3) adjustedConfidence)

/-- C2: on the all-zero series `[0]` (a legal series: quantities are
non-negative and may be 0) the server-side confidence computation divides
`stdDev = 0` by `mean = 0`, producing `NaN`, which propagates through
`max`, `·` and `min` to the returned confidence — not a value in
`[0.3, 0.98]` as claimed.  (The client-side copy of the function guards
`mean = 0` and does satisfy the claim.) -/
theorem calculateConfidenceJS_nan_on_zero_series :
    calculateConfidenceJS [0] 0 = JsNum.nan := by
  simp only [calculateConfidenceJS]
  norm_num [JsNum.add, JsNum.sub, JsNum.div, JsNum.mul, JsNum.sqrtJ,
    JsNum.maxJ, JsNum.minJ, JsNum.absJ, JsNum.orDefault, JsNum.expJ,
    JsNum.neg, Real.sqrt_zero]

/-- The client-side `calculateConfidence` (client forecasting utilities):
identical to the server-side computation except for the
`mean === 0 ? 1 : stdDev / mean` guard the claim describes. -/
def calculateConfidenceClient (historicalData : List ℝ) (prediction : ℝ) : ℝ :=
  if historicalData.length = 0 then 0.5
  else
    let mean := meanOf historicalData
    let stdDev := stdDevOf historicalData
    let coefficientOfVariation := if mean = 0 then 1 else stdDev / mean
    let baseConfidence := max 0.3 (1 - coefficientOfVariation)
    let predictionDeviation :=
      |prediction - mean| / (if stdDev = 0 then 1 else stdDev)
    let adjustedConfidence := baseConfidence * Real.exp (-(predictionDeviation / 2))
    min 0.98 (max 0.3 adjustedConfidence)

/-- The guarded (client-side) confidence computation always lies in
`[0.3, 0.98]`: with the `mean = 0` guard every intermediate value is a real
number and the final clamp bounds the result (the empty-series fallback 0.5
is inside the interval as well). -/
theorem calculateConfidenceClient_bounds (data : List ℝ) (prediction : ℝ) :
    0.3 ≤ calculateConfidenceClient data prediction ∧
    calculateConfidenceClient data prediction ≤ 0.98 := by
  by_cases h : data.length = 0
  · simp only [calculateConfidenceClient, if_pos h]
    norm_num
  · simp only [calculateConfidenceClient, if_neg h]
    exact ⟨le_min (by norm_num) (le_max_left _ _), min_le_left _ _⟩

end

end FoodCast
